import Mathlib

/-!
Verification of `sleeper.c`
(client/site_tests/security_ptraceRestrictions/src/sleeper.c).

The program is embedded shallowly: `cMain` maps the argument vector and an
`OS` environment (the process's own pid and the values the kernel would
return from the two syscalls whose results the program could observe) to
the ordered list of externally visible events it performs together with
its exit status.  `atoi` follows the C library semantics: skip leading
whitespace, read an optional sign and a run of decimal digits, ignore the
rest, yield 0 when no digits are present.  The argument of `sleep` has the
unsigned 32-bit parameter type, so the parsed `int` is converted modulo
2 ^ 32 (`uintOfInt`).
-/

namespace Sleeper

/-- An externally visible action of the program, in the order performed:
a write to the error stream (`fprintf(stderr, ...)`), a signal delivery
(`kill`), a tracer-permission syscall (`prctl`), or a timed suspension
(`sleep`, with the already-converted unsigned second count).  The program
never writes to standard output and touches no file or socket, so the
event type needs no further constructors. -/
inductive Event where
  | writeStderr (s : String)
  | kill (pid : Int) (sig : Int)
  | prctl (op : Int) (arg2 : Int)
  | sleepCall (seconds : Nat)
  deriving DecidableEq

/-- The `PR_SET_PTRACER` option value, 0x59616d61 ("Yama"), as defined at
the top of `sleeper.c`. -/
def PR_SET_PTRACER : Int := 0x59616d61

/-- The SIGINT signal number. -/
def SIGINT : Int := 2

/-- Environment supplied by the operating system: the pid `getpid` returns,
the value the kernel returns from the `prctl` call, and the unslept seconds
`sleep` reports (0 when the sleep ran to completion, positive when a signal
interrupted it).  The program reads `selfPid`; the other two fields let us
state that its behavior is independent of those syscall results. -/
structure OS where
  selfPid : Int
  prctlRet : Int
  sleepRet : Nat
  deriving DecidableEq

/-- Whitespace as recognized by `atoi` (C locale `isspace`). -/
def isCSpace (c : Char) : Bool :=
  c = ' ' || c = '\t' || c = '\n' || c = '\r' || c = '\x0b' || c = '\x0c'

/-- Value of the leading run of decimal digits, accumulator style; parsing
stops at the first non-digit character, exactly as `atoi` does. -/
def digitsVal : List Char → Nat → Nat
  | [], acc => acc
  | c :: cs, acc =>
    if c.isDigit then digitsVal cs (acc * 10 + (c.toNat - '0'.toNat)) else acc

/-- C `atoi`: skip leading whitespace, read an optional sign and then a run
of decimal digits; remaining characters are ignored, and the result is 0
when no digits are present. -/
def atoi (s : String) : Int :=
  match s.data.dropWhile isCSpace with
  | '-' :: rest => -(digitsVal rest 0 : Int)
  | '+' :: rest => (digitsVal rest 0 : Int)
  | cs => (digitsVal cs 0 : Int)

/-- The C argument conversion from `int` to the `unsigned int` parameter of
`sleep`: reduction modulo 2 ^ 32. -/
def uintOfInt (i : Int) : Nat := (i % (2 ^ 32 : Int)).toNat

/-- The empty string, used as the (never reached) default when indexing
into the argument vector. -/
def emptyArg : String := ""

/-- The usage line `main` prints: the `fprintf` format string with `%s`
replaced by the program name. -/
def usageMessage (prog : String) : String :=
  "Usage: " ++ prog ++ " TRACER_PID SLEEP_SECONDS\n"

/-- Shallow embedding of `main` from `sleeper.c`.  `argv` is the argument
vector (`argv.length` is `argc`, `argv.headD emptyArg` is `argv[0]`); the result
pairs the list of events performed, in program order, with the exit
status.  `pid = atoi(argv[1])` is written out at each use since `atoi` is
pure. -/
def cMain (os : OS) (argv : List String) : List Event × Int :=
  if argv.length < 3 then
    ([Event.writeStderr (usageMessage (argv.headD emptyArg)),
      Event.kill os.selfPid SIGINT], 1)
  else
    ((if atoi (argv.getD 1 emptyArg) ≠ -1 then
        [Event.prctl PR_SET_PTRACER (atoi (argv.getD 1 emptyArg))]
      else []) ++
     [Event.sleepCall (uintOfInt (atoi (argv.getD 2 emptyArg)))], 0)

/-- Recognizes the tracer-permission syscall among events. -/
def declaresTracer : Event → Bool
  | Event.prctl _ _ => true
  | _ => false

/-- Recognizes events that write to the output or error stream. -/
def writesToStream : Event → Bool
  | Event.writeStderr _ => true
  | _ => false

/-- Recognizes the two side effects of the success path: the
tracer-permission syscall and the timed sleep. -/
def isTracerOrSleep : Event → Bool
  | Event.prctl _ _ => true
  | Event.sleepCall _ => true
  | _ => false

/-- A fixed concrete environment used by the witness theorems. -/
def os0 : OS := ⟨1234, 0, 0⟩

theorem digitsVal_eq_zero (cs : List Char) (h : ∀ c ∈ cs, c.isDigit = false) :
    digitsVal cs 0 = 0 := by
  cases cs with
  | nil => rfl
  | cons c r => simp [digitsVal, h c (List.mem_cons_self c r)]

theorem atoi_eq_zero_of_no_digit (s : String)
    (h : ∀ c ∈ s.data, c.isDigit = false) : atoi s = 0 := by
  have hsub : ∀ c ∈ s.data.dropWhile isCSpace, c.isDigit = false := fun c hc =>
    h c ((List.dropWhile_sublist isCSpace (l := s.data)).subset hc)
  unfold atoi
  split
  · rename_i rest heq
    have hr : ∀ c ∈ rest, c.isDigit = false := fun c hc =>
      hsub c (heq ▸ List.mem_cons_of_mem _ hc)
    simp [digitsVal_eq_zero rest hr]
  · rename_i rest heq
    have hr : ∀ c ∈ rest, c.isDigit = false := fun c hc =>
      hsub c (heq ▸ List.mem_cons_of_mem _ hc)
    simp [digitsVal_eq_zero rest hr]
  · rename_i cs h1 h2
    simp [digitsVal_eq_zero _ hsub]

/-- C1: with fewer than two positional arguments (`argc < 3`) the program
writes the usage message naming the program and the expected arguments to
the error stream, delivers SIGINT to its own process, and terminates with
exit status 1. -/
theorem usage_path (os : OS) (argv : List String) (h : argv.length < 3) :
    cMain os argv =
      ([Event.writeStderr (usageMessage (argv.headD emptyArg)),
        Event.kill os.selfPid SIGINT], 1) := by
  unfold cMain
  rw [if_pos h]

/-- Witness for C1 at a concrete one-argument invocation. -/
theorem usage_path_witness :
    cMain os0 ["sleeper"] =
      ([Event.writeStderr ("Usage: sleeper TRACER_PID SLEEP_SECONDS\n"),
        Event.kill 1234 SIGINT], 1) := by
  have h := usage_path os0 ["sleeper"] (by decide)
  exact h

theorem cMain_success (os : OS) (argv : List String) (h : 3 ≤ argv.length) :
    cMain os argv =
      ((if atoi (argv.getD 1 emptyArg) ≠ -1 then
          [Event.prctl PR_SET_PTRACER (atoi (argv.getD 1 emptyArg))]
        else []) ++
       [Event.sleepCall (uintOfInt (atoi (argv.getD 2 emptyArg)))], 0) := by
  unfold cMain
  rw [if_neg (not_lt.mpr h)]

/-- C2: with `argc ≥ 3` and a first argument not parsing to -1, the trace
is exactly one `prctl(PR_SET_PTRACER, tracer_id, ...)` call followed by the
sleep, so the set-permitted-tracer syscall happens exactly once with the
parsed tracer id; the exit status is 0, and the whole behavior is
unchanged under any return value of the `prctl` call. -/
theorem tracer_declaration (os : OS) (argv : List String) (h : 3 ≤ argv.length)
    (hp : atoi (argv.getD 1 emptyArg) ≠ -1) :
    (cMain os argv).1 =
      [Event.prctl PR_SET_PTRACER (atoi (argv.getD 1 emptyArg)),
       Event.sleepCall (uintOfInt (atoi (argv.getD 2 emptyArg)))] ∧
    (cMain os argv).1.countP declaresTracer = 1 ∧
    (cMain os argv).2 = 0 ∧
    (∀ r : Int, cMain { os with prctlRet := r } argv = cMain os argv) := by
  refine ⟨?_, ?_, ?_, fun r => ?_⟩
  · rw [cMain_success os argv h, if_pos hp]
    rfl
  · rw [cMain_success os argv h, if_pos hp]
    simp [List.countP_cons, declaresTracer]
  · rw [cMain_success os argv h]
  · rw [cMain_success { os with prctlRet := r } argv h, cMain_success os argv h]

/-- Witness for C2: tracer id 42, sleep 5, and an arbitrary prctl return
value 7 that does not change the behavior. -/
theorem tracer_declaration_witness :
    (cMain os0 ["sleeper", "42", "5"]).1 =
      [Event.prctl PR_SET_PTRACER 42, Event.sleepCall 5] ∧
    (cMain os0 ["sleeper", "42", "5"]).1.countP declaresTracer = 1 ∧
    (cMain os0 ["sleeper", "42", "5"]).2 = 0 ∧
    cMain { os0 with prctlRet := 7 } ["sleeper", "42", "5"] =
      cMain os0 ["sleeper", "42", "5"] := by
  have h := tracer_declaration os0 ["sleeper", "42", "5"] (by decide) (by decide)
  exact ⟨h.1, h.2.1, h.2.2.1, h.2.2.2 7⟩

/-- C3: with `argc ≥ 3`, the last event is the sleep call with the parsed
second argument (converted to the unsigned parameter type), the exit status
is 0, the behavior is the same whether the sleep completed or was
interrupted (any unslept-seconds result), and for an in-range non-negative
parse the slept duration is exactly the parsed value. -/
theorem sleep_then_exit_zero (os : OS) (argv : List String) (h : 3 ≤ argv.length) :
    (cMain os argv).1.getLast? =
      some (Event.sleepCall (uintOfInt (atoi (argv.getD 2 emptyArg)))) ∧
    (cMain os argv).2 = 0 ∧
    (∀ r : Nat, cMain { os with sleepRet := r } argv = cMain os argv) ∧
    (0 ≤ atoi (argv.getD 2 emptyArg) → atoi (argv.getD 2 emptyArg) < 2 ^ 32 →
      uintOfInt (atoi (argv.getD 2 emptyArg)) = (atoi (argv.getD 2 emptyArg)).toNat) := by
  refine ⟨?_, ?_, fun r => rfl, fun h0 h32 => ?_⟩
  · rw [cMain_success os argv h]
    exact List.getLast?_concat _
  · rw [cMain_success os argv h]
  · unfold uintOfInt
    rw [Int.emod_eq_of_lt h0 h32]

/-- Witness for C3: sleep 3 seconds, with sentinel tracer id -1, and an
interrupted sleep (2 unslept seconds) behaving identically. -/
theorem sleep_then_exit_zero_witness :
    (cMain os0 ["sleeper", "-1", "3"]).1.getLast? = some (Event.sleepCall 3) ∧
    (cMain os0 ["sleeper", "-1", "3"]).2 = 0 ∧
    cMain { os0 with sleepRet := 2 } ["sleeper", "-1", "3"] =
      cMain os0 ["sleeper", "-1", "3"] ∧
    uintOfInt (atoi ("3")) = (atoi ("3")).toNat := by
  have h := sleep_then_exit_zero os0 ["sleeper", "-1", "3"] (by decide)
  exact ⟨h.1, h.2.1, h.2.2.1 2, h.2.2.2 (by decide) (by decide)⟩

/-- C4: with `argc ≥ 3` and a first argument parsing to exactly -1, the
trace is the sleep call alone: it contains no tracer-permission syscall at
all. -/
theorem no_tracer_when_sentinel (os : OS) (argv : List String)
    (h : 3 ≤ argv.length) (hp : atoi (argv.getD 1 emptyArg) = -1) :
    (cMain os argv).1 = [Event.sleepCall (uintOfInt (atoi (argv.getD 2 emptyArg)))] ∧
    (cMain os argv).1.countP declaresTracer = 0 := by
  rw [cMain_success os argv h, if_neg (not_not_intro hp)]
  exact ⟨rfl, rfl⟩

/-- Witness for C4 at tracer id -1 and sleep 0. -/
theorem no_tracer_when_sentinel_witness :
    (cMain os0 ["sleeper", "-1", "0"]).1 = [Event.sleepCall 0] ∧
    (cMain os0 ["sleeper", "-1", "0"]).1.countP declaresTracer = 0 := by
  have h := no_tracer_when_sentinel os0 ["sleeper", "-1", "0"] (by decide) (by decide)
  exact h

/-- C5: with `argc ≥ 3` the exit status is 0, for arbitrary argument
strings; and text with no digits at all parses to 0 under `atoi` (the
platform default), so numeric invalidity never reaches an error path. -/
theorem exit_zero_any_text (os : OS) (argv : List String) (h : 3 ≤ argv.length) :
    (cMain os argv).2 = 0 ∧
    (∀ s : String, (∀ c ∈ s.data, c.isDigit = false) → atoi s = 0) := by
  refine ⟨?_, fun s hs => atoi_eq_zero_of_no_digit s hs⟩
  rw [cMain_success os argv h]

/-- Witness for C5: non-numeric arguments still exit with status 0. -/
theorem exit_zero_any_text_witness :
    (cMain os0 ["sleeper", "abc", "xyz"]).2 = 0 ∧ atoi ("abc") = 0 := by
  have h := exit_zero_any_text os0 ["sleeper", "abc", "xyz"] (by decide)
  exact ⟨h.1, h.2 ("abc") (by decide)⟩

/-- C6: on the usage-error path the event order is fixed: the usage text
on the error stream is the first event, the SIGINT to self is the last of
the two events, and the exit status 1 is the program's final result, so
the diagnostics strictly precede the self-signal, which precedes exit. -/
theorem usage_effect_order (os : OS) (argv : List String) (h : argv.length < 3) :
    (cMain os argv).1.head? =
      some (Event.writeStderr (usageMessage (argv.headD emptyArg))) ∧
    (cMain os argv).1.getLast? = some (Event.kill os.selfPid SIGINT) ∧
    (cMain os argv).1.length = 2 ∧
    (cMain os argv).2 = 1 := by
  unfold cMain
  rw [if_pos h]
  exact ⟨rfl, rfl, rfl, rfl⟩

/-- Witness for C6 at a concrete one-argument invocation. -/
theorem usage_effect_order_witness :
    (cMain os0 ["sleeper", "9"]).1.head? =
      some (Event.writeStderr ("Usage: sleeper TRACER_PID SLEEP_SECONDS\n")) ∧
    (cMain os0 ["sleeper", "9"]).1.getLast? = some (Event.kill 1234 SIGINT) ∧
    (cMain os0 ["sleeper", "9"]).1.length = 2 ∧
    (cMain os0 ["sleeper", "9"]).2 = 1 := by
  have h := usage_effect_order os0 ["sleeper", "9"] (by decide)
  exact h

/-- C7: on the success path every event is the tracer-permission syscall
or the sleep, and in particular no event writes to the output or error
stream: the program is silent on success. -/
theorem silent_success (os : OS) (argv : List String) (h : 3 ≤ argv.length) :
    (cMain os argv).1.all isTracerOrSleep = true ∧
    (cMain os argv).1.countP writesToStream = 0 := by
  rw [cMain_success os argv h]
  by_cases hp : atoi (argv.getD 1 emptyArg) ≠ -1
  · rw [if_pos hp]
    exact ⟨rfl, rfl⟩
  · rw [if_neg hp]
    exact ⟨rfl, rfl⟩

/-- Witness for C7 with a declared tracer. -/
theorem silent_success_witness :
    (cMain os0 ["sleeper", "8", "1"]).1.all isTracerOrSleep = true ∧
    (cMain os0 ["sleeper", "8", "1"]).1.countP writesToStream = 0 := by
  have h := silent_success os0 ["sleeper", "8", "1"] (by decide)
  exact h

/-- C8: a first argument containing no digit parses to 0 under `atoi`,
and since 0 differs from the sentinel -1, the program does invoke the
tracer-permission syscall, with process identifier 0, rather than skipping
the declaration. -/
theorem nonnumeric_tracer_zero (os : OS) (argv : List String)
    (h : 3 ≤ argv.length)
    (hnd : ∀ c ∈ (argv.getD 1 emptyArg).data, c.isDigit = false) :
    atoi (argv.getD 1 emptyArg) = 0 ∧
    Event.prctl PR_SET_PTRACER 0 ∈ (cMain os argv).1 := by
  have h0 : atoi (argv.getD 1 emptyArg) = 0 := atoi_eq_zero_of_no_digit _ hnd
  have hp : atoi (argv.getD 1 emptyArg) ≠ -1 := by
    rw [h0]
    decide
  refine ⟨h0, ?_⟩
  rw [cMain_success os argv h, if_pos hp, h0]
  exact List.mem_cons_self _ _

/-- Witness for C8 at the non-numeric tracer argument "bogus". -/
theorem nonnumeric_tracer_zero_witness :
    atoi ("bogus") = 0 ∧
    Event.prctl PR_SET_PTRACER 0 ∈ (cMain os0 ["sleeper", "bogus", "2"]).1 := by
  have h := nonnumeric_tracer_zero os0 ["sleeper", "bogus", "2"] (by decide) (by decide)
  exact h

/-- C9: a second argument parsing to a negative in-range `int` is neither
rejected nor clamped: the sleep call still happens, its duration is the
parsed value plus 2 ^ 32 (the unsigned conversion), which is at least
2 ^ 31 — a very large second count (for -1, exactly 4294967295). -/
theorem negative_sleep_wraps (os : OS) (argv : List String)
    (h : 3 ≤ argv.length) (hneg : atoi (argv.getD 2 emptyArg) < 0)
    (hlo : -(2 ^ 31) ≤ atoi (argv.getD 2 emptyArg)) :
    Event.sleepCall (uintOfInt (atoi (argv.getD 2 emptyArg))) ∈ (cMain os argv).1 ∧
    uintOfInt (atoi (argv.getD 2 emptyArg)) =
      (atoi (argv.getD 2 emptyArg) + 2 ^ 32).toNat ∧
    2 ^ 31 ≤ uintOfInt (atoi (argv.getD 2 emptyArg)) := by
  have h32 : (2 : Int) ^ 32 = 4294967296 := by norm_num
  have h31 : (2 : Int) ^ 31 = 2147483648 := by norm_num
  have h31n : (2 : Nat) ^ 31 = 2147483648 := by norm_num
  refine ⟨?_, ?_, ?_⟩
  · rw [cMain_success os argv h]
    exact List.mem_append_right _ (List.mem_cons_self _ _)
  · unfold uintOfInt
    rw [h32]
    rw [h31] at hlo
    omega
  · unfold uintOfInt
    rw [h32, h31n]
    rw [h31] at hlo
    omega

/-- Witness for C9: SLEEP_SECONDS "-1" sleeps 4294967295 seconds. -/
theorem negative_sleep_wraps_witness :
    Event.sleepCall 4294967295 ∈ (cMain os0 ["sleeper", "0", "-1"]).1 ∧
    uintOfInt (atoi ("-1")) = 4294967295 ∧
    2 ^ 31 ≤ uintOfInt (atoi ("-1")) := by
  have h := negative_sleep_wraps os0 ["sleeper", "0", "-1"] (by decide) (by decide)
    (by decide)
  exact ⟨h.1, h.2.1, h.2.2⟩

/-- C10: two invocations with at least two positional arguments that agree
on `argv[1]` and `argv[2]` behave identically — same event trace and same
exit status — whatever further arguments either of them carries. -/
theorem extra_args_irrelevant (os : OS) (a b : List String)
    (ha : 3 ≤ a.length) (hb : 3 ≤ b.length)
    (h1 : a.getD 1 emptyArg = b.getD 1 emptyArg)
    (h2 : a.getD 2 emptyArg = b.getD 2 emptyArg) :
    cMain os a = cMain os b := by
  rw [cMain_success os a ha, cMain_success os b hb, h1, h2]

/-- Witness for C10: extra trailing arguments change nothing. -/
theorem extra_args_irrelevant_witness :
    cMain os0 ["sleeper", "77", "4"] =
      cMain os0 ["sleeper", "77", "4", "ignored", "more"] := by
  have h := extra_args_irrelevant os0 ["sleeper", "77", "4"]
    ["sleeper", "77", "4", "ignored", "more"] (by decide) (by decide) (by decide)
    (by decide)
  exact h

end Sleeper
